import Mathlib

/-!
Shallow embedding of the ingestion / validation / aggregation core of the
cafe-sales-analysis program (src/data/loader.py and the data-preparation part
of src/visualization/charts.py), together with theorems settling the frozen
claims about its natural-language specification.

Modelling conventions:
* A timestamp is an integer count of minutes since an epoch placed at a
  Monday 00:00; pandas Timestamp ordering becomes integer ordering, the
  day-of-week name and the hour of day are obtained by Euclidean division.
* Raw cell values are classified by parseability: a cell is blank (read as
  NaN), a token that parses as a number, a token that parses as a timestamp,
  or other text.  This abstracts the pandas parsers invoked by read_csv,
  pd.to_numeric (errors coerce) and pd.to_datetime (errors coerce): the
  repository code only observes whether parsing succeeded and with which
  typed value.
* Missing values (NaN / NaT) are Option.none.
* DataFrame cell mutation performed by a routine is made explicit: every
  chart routine returns, next to its view, the data frame as it is after the
  call (time_heatmap assigns two new columns to its argument frame; all the
  other routines leave it untouched).
-/

namespace CafeSales

/-- Minutes since an epoch that falls on a Monday at 00:00. -/
abbrev Timestamp := Int

/-- A raw CSV cell, classified by how the pandas parsers treat it:
blank cells are read as missing, numeric tokens parse as numbers,
temporal tokens parse as timestamps, anything else stays text. -/
inductive RawValue where
  | blank
  | text (s : String)
  | number (q : ℚ)
  | time (t : Timestamp)
deriving DecidableEq, Repr

/-- A raw row assigns a raw cell value to every column name. -/
abbrev RawRow := String → RawValue

/-- Raw tabular input: the header (column names) and the data rows. -/
structure RawInput where
  columns : List String
  rows : List RawRow

/-- One cleaned transaction record, fields as coerced by the loader
(missing values explicit). -/
structure Record where
  transactionDate : Option Timestamp
  item : Option String
  quantity : Option ℚ
  pricePerUnit : Option ℚ
  totalSpent : Option ℚ
  paymentMethod : Option String
  location : Option String
deriving DecidableEq, Repr

/-- A cleaned data frame: the records plus the names of any columns that
were added beyond the seven required ones (used to make cell-assignment
mutation of the frame observable). -/
structure Dataset where
  extraColumns : List String
  records : List Record
deriving DecidableEq, Repr

/-- The seven required column names checked by DataLoader validation. -/
def requiredColumns : List String :=
  ["Transaction Date", "Item", "Quantity", "Price Per Unit", "Total Spent",
   "Payment Method", "Location"]

/-- Numeric coercion, the per-value effect of pd.to_numeric with coercing
errors: a token that parses as a number yields that number, anything else
yields missing. -/
def toNumeric : RawValue → Option ℚ
  | .number q => some q
  | _ => none

/-- Temporal coercion, the per-value effect of pd.to_datetime with coercing
errors (and of the parse performed by read_csv for the parse_dates column):
a token that parses as a timestamp yields it, anything else yields missing. -/
def toTemporal : RawValue → Option Timestamp
  | .time t => some t
  | _ => none

/-- Text columns are taken as read: blank cells are missing, every other
cell is kept as its textual content. -/
def toText : RawValue → Option String
  | .blank => none
  | .text s => some s
  | .number q => some (toString q)
  | .time t => some (toString t)

/-- Field coercion of one raw row into a Record, as performed by
DataLoader for the four coerced columns and by read_csv for the rest. -/
def coerceRow (row : RawRow) : Record :=
  { transactionDate := toTemporal (row "Transaction Date")
    item := toText (row "Item")
    quantity := toNumeric (row "Quantity")
    pricePerUnit := toNumeric (row "Price Per Unit")
    totalSpent := toNumeric (row "Total Spent")
    paymentMethod := toText (row "Payment Method")
    location := toText (row "Location") }

/-- DataLoader validate-data-types step: coerce the numeric columns and the
timestamp column of every row, in place, dropping nothing. -/
def validate_data_types (rows : List RawRow) : List Record :=
  rows.map coerceRow

/-- DataLoader filter-by-date step: when a start bound is configured keep
the rows whose timestamp compares at least the bound, then likewise for an
end bound; a pandas comparison against a missing timestamp is false. -/
def filter_by_date (start_date end_date : Option Timestamp)
    (rs : List Record) : List Record :=
  let rs1 :=
    match start_date with
    | none => rs
    | some a =>
        rs.filter fun r =>
          match r.transactionDate with
          | none => false
          | some t => decide (a ≤ t)
  match end_date with
  | none => rs1
  | some b =>
      rs1.filter fun r =>
        match r.transactionDate with
        | none => false
        | some t => decide (t ≤ b)

/-- The structured errors the load step can fail with.  The first is the
pandas read_csv error raised when the column named in parse_dates is absent
from the header; the second is the missing-required-columns error of
validate-data; the third is the empty-data error of validate-data. -/
inductive LoadError where
  | parseDatesMissingColumn (col : String)
  | missingColumns (cols : List String)
  | emptyData
deriving DecidableEq, Repr

/-- DataLoader load-data: read the CSV parsing the Transaction Date column
(read_csv fails if that column is absent), check the required columns,
check non-emptiness, coerce the field types, and filter by date when a
bound is configured. -/
def load_data (start_date end_date : Option Timestamp)
    (input : RawInput) : Except LoadError Dataset :=
  if "Transaction Date" ∈ input.columns then
    if (requiredColumns.filter fun c => decide (c ∉ input.columns)).isEmpty then
      if input.rows.isEmpty then .error .emptyData
      else
        .ok { extraColumns := [],
              records :=
                if start_date.isSome || end_date.isSome then
                  filter_by_date start_date end_date
                    (validate_data_types input.rows)
                else validate_data_types input.rows }
    else .error (.missingColumns
      (requiredColumns.filter fun c => decide (c ∉ input.columns)))
  else .error (.parseDatesMissingColumn "Transaction Date")

/-- Linear-interpolation quantile of a list of rationals, the method used
by pandas Series.quantile: position q * (n - 1) in the sorted values,
interpolating between the two bracketing elements. -/
def quantileLinear (l : List ℚ) (q : ℚ) : ℚ :=
  let s := List.insertionSort (· ≤ ·) l
  let pos : ℚ := q * ((s.length : ℚ) - 1)
  let i : ℤ := ⌊pos⌋
  let lo := s.getD i.toNat 0
  let hi := s.getD (i.toNat + 1) lo
  lo + (pos - (i : ℚ)) * (hi - lo)

/-- The lower bound Q1 - 3 IQR of the outlier fence of a column, built
from the linear 25th and 75th percentiles of its non-missing values. -/
def lowerFence (vals : List (Option ℚ)) : ℚ :=
  quantileLinear (vals.filterMap id) (1/4) -
    3 * (quantileLinear (vals.filterMap id) (3/4) -
      quantileLinear (vals.filterMap id) (1/4))

/-- The upper bound Q3 + 3 IQR of the outlier fence of a column. -/
def upperFence (vals : List (Option ℚ)) : ℚ :=
  quantileLinear (vals.filterMap id) (3/4) +
    3 * (quantileLinear (vals.filterMap id) (3/4) -
      quantileLinear (vals.filterMap id) (1/4))

/-- Outlier detection on one column, from DataLoader check-outliers: drop
the missing values, return nothing when none remain, and otherwise flag
the indices whose value lies outside the fence. -/
def outlierIndices (vals : List (Option ℚ)) : List Nat :=
  if (vals.filterMap id).isEmpty then []
  else
    (List.range vals.length).filter fun i =>
      match vals.getD i none with
      | none => false
      | some v => decide (v < lowerFence vals ∨ upperFence vals < v)

/-- DataLoader check-outliers, applied to its three numeric columns in the
order the source lists them. -/
def check_outliers (rs : List Record) : List (String × List Nat) :=
  [("Total Spent", outlierIndices (rs.map (·.totalSpent))),
   ("Quantity", outlierIndices (rs.map (·.quantity))),
   ("Price Per Unit", outlierIndices (rs.map (·.pricePerUnit)))]

/-- Smallest element of a timestamp list, missing for the empty list
(pandas min over a datetime series skips NaT and is NaT when empty). -/
def minimumTs : List Timestamp → Option Timestamp
  | [] => none
  | h :: t => some (t.foldl min h)

/-- Largest element of a timestamp list, missing for the empty list. -/
def maximumTs : List Timestamp → Option Timestamp
  | [] => none
  | h :: t => some (t.foldl max h)

/-- Series.value_counts as a mapping: each distinct value with its
multiplicity (missing values excluded before counting). -/
def valueCounts (l : List String) : List (String × Nat) :=
  l.dedup.map fun k => (k, l.count k)

/-- The data summary value object built by DataLoader get-data-summary. -/
structure Summary where
  total_records : Nat
  date_start : Option Timestamp
  date_end : Option Timestamp
  total_sales : ℚ
  unique_items : Nat
  unique_locations : Nat
  payment_methods : List (String × Nat)
  missing_values : List (String × Nat)
deriving DecidableEq, Repr

/-- DataLoader get-data-summary: record count, timestamp range, sum of the
total-spent column skipping missing, distinct-value counts over non-missing
items and locations, value counts of the payment methods, and per-column
missing counts. -/
def get_data_summary (ds : Dataset) : Summary :=
  let rs := ds.records
  { total_records := rs.length
    date_start := minimumTs (rs.filterMap (·.transactionDate))
    date_end := maximumTs (rs.filterMap (·.transactionDate))
    total_sales := (rs.filterMap (·.totalSpent)).sum
    unique_items := (rs.filterMap (·.item)).dedup.length
    unique_locations := (rs.filterMap (·.location)).dedup.length
    payment_methods := valueCounts (rs.filterMap (·.paymentMethod))
    missing_values :=
      [("Transaction Date", rs.countP fun r => r.transactionDate.isNone),
       ("Item", rs.countP fun r => r.item.isNone),
       ("Quantity", rs.countP fun r => r.quantity.isNone),
       ("Price Per Unit", rs.countP fun r => r.pricePerUnit.isNone),
       ("Total Spent", rs.countP fun r => r.totalSpent.isNone),
       ("Payment Method", rs.countP fun r => r.paymentMethod.isNone),
       ("Location", rs.countP fun r => r.location.isNone)] }

/-- Round an exact rational to the nearest integer, ties to the even
integer, the rounding numpy applies. -/
def roundHalfEven (x : ℚ) : ℤ :=
  if Int.fract x < 1/2 then ⌊x⌋
  else if 1/2 < Int.fract x then ⌊x⌋ + 1
  else if Even ⌊x⌋ then ⌊x⌋ else ⌊x⌋ + 1

/-- DataFrame.round 2: round to two decimal places. -/
def round2 (q : ℚ) : ℚ := (roundHalfEven (q * 100) : ℚ) / 100

/-- Mean of a rational list, missing for the empty list (pandas mean of an
all-missing group is NaN). -/
def meanOf (l : List ℚ) : Option ℚ :=
  if l.isEmpty then none else some (l.sum / (l.length : ℚ))

/-- Calendar-date part of a timestamp: the day number since the epoch
(the dt.date accessor, discarding time of day). -/
def dateOf (t : Timestamp) : Int := t / 1440

/-- The seven day names in the order the heatmap code lists them. -/
def dayNames : List String :=
  ["Monday", "Tuesday", "Wednesday", "Thursday", "Friday", "Saturday",
   "Sunday"]

/-- Day-of-week index of a timestamp (the epoch is a Monday). -/
def dayIdx (t : Timestamp) : Nat := ((t / 1440) % 7).toNat

/-- Day-of-week name of a timestamp, the dt.day_name accessor. -/
def dayName (t : Timestamp) : String := dayNames.getD (dayIdx t) ""

/-- Hour of day of a timestamp, the dt.hour accessor. -/
def hourOf (t : Timestamp) : Nat := ((t % 1440) / 60).toNat

/-- Per-group aggregates of the total-spent column with the pandas names
sum, count and mean. -/
structure DailyStats where
  sum : ℚ
  count : Nat
  mean : Option ℚ
deriving DecidableEq, Repr

/-- Sales-trend data preparation: group the records by calendar date of a
non-missing timestamp (groupby drops missing keys and sorts the keys
ascending) and aggregate sum, count and mean of the total-spent column
over the non-missing amounts. -/
def daily_sales_data (rs : List Record) : List (Int × DailyStats) :=
  let keys := List.insertionSort (· ≤ ·)
    (((rs.filterMap (·.transactionDate)).map dateOf).dedup)
  keys.map fun d =>
    let ts := (rs.filter fun r =>
      match r.transactionDate with
      | some t => decide (dateOf t = d)
      | none => false).filterMap (·.totalSpent)
    (d, { sum := ts.sum, count := ts.length, mean := meanOf ts })

/-- The per-item aggregates of the product-performance view, with the
renamed pandas columns. -/
structure ItemStats where
  revenue : ℚ
  transactions : Nat
  avgPrice : Option ℚ
  unitsSold : ℚ
deriving DecidableEq, Repr

/-- The distinct non-missing item names, the groupby keys of the item
view (groupby drops records whose key is missing). -/
def itemKeys (rs : List Record) : List String :=
  (rs.filterMap (·.item)).dedup

/-- The non-missing total-spent amounts of the records grouped under one
item name. -/
def itemGroupTS (rs : List Record) (k : String) : List ℚ :=
  (rs.filter fun r => decide (r.item = some k)).filterMap (·.totalSpent)

/-- The non-missing quantities of the records grouped under one item. -/
def itemGroupQty (rs : List Record) (k : String) : List ℚ :=
  (rs.filter fun r => decide (r.item = some k)).filterMap (·.quantity)

/-- One row of the item view: sum, count and mean of total spent plus the
quantity sum, each numeric aggregate rounded to two decimals. -/
def itemStatsOf (rs : List Record) (k : String) : ItemStats :=
  { revenue := round2 (itemGroupTS rs k).sum
    transactions := (itemGroupTS rs k).length
    avgPrice := (meanOf (itemGroupTS rs k)).map round2
    unitsSold := round2 (itemGroupQty rs k).sum }

/-- Product-performance data preparation: aggregate per item, round, sort
descending by revenue, keep the top 15 rows. -/
def product_performance_data (rs : List Record) :
    List (String × ItemStats) :=
  (List.insertionSort (fun a b => b.2.revenue ≤ a.2.revenue)
    ((itemKeys rs).map fun k => (k, itemStatsOf rs k))).take 15

/-- The per-location aggregates of the location view. -/
structure LocationStats where
  revenue : ℚ
  transactions : Nat
  avgTransaction : Option ℚ
  uniqueItems : Nat
deriving DecidableEq, Repr

/-- Location-performance data preparation: aggregate total spent and the
distinct item count per non-missing location, round, sort descending by
revenue. -/
def location_analysis_data (rs : List Record) :
    List (String × LocationStats) :=
  let keys := (rs.filterMap (·.location)).dedup
  List.insertionSort (fun a b => b.2.revenue ≤ a.2.revenue)
    (keys.map fun k =>
      let g := rs.filter fun r => decide (r.location = some k)
      let ts := g.filterMap (·.totalSpent)
      (k, { revenue := round2 ts.sum
            transactions := ts.length
            avgTransaction := (meanOf ts).map round2
            uniqueItems := (g.filterMap (·.item)).dedup.length }))

/-- The per-payment-method aggregates of the payment view. -/
structure PaymentStats where
  revenue : ℚ
  transactions : Nat
  avgTransaction : Option ℚ
deriving DecidableEq, Repr

/-- Payment-method data preparation: aggregate total spent per non-missing
payment method, round, sort descending by revenue. -/
def payment_method_data (rs : List Record) :
    List (String × PaymentStats) :=
  let keys := (rs.filterMap (·.paymentMethod)).dedup
  List.insertionSort (fun a b => b.2.revenue ≤ a.2.revenue)
    (keys.map fun k =>
      let ts := (rs.filter fun r =>
        decide (r.paymentMethod = some k)).filterMap (·.totalSpent)
      (k, { revenue := round2 ts.sum
            transactions := ts.length
            avgTransaction := (meanOf ts).map round2 }))

/-- The heatmap view: the observed hour columns and, per day name, the row
of cells (a missing cell is the NaN a reindex introduces for a day absent
from the pivot). -/
structure Heatmap where
  hours : List Nat
  rows : List (String × List (Option ℚ))
deriving DecidableEq, Repr

/-- The distinct hours observed among the non-missing timestamps, sorted
ascending: the columns the pivot table actually has. -/
def observedHours (rs : List Record) : List Nat :=
  List.insertionSort (· ≤ ·)
    (((rs.filterMap (·.transactionDate)).map hourOf).dedup)

/-- The distinct day names observed among the non-missing timestamps: the
index the pivot table actually has before the reindex. -/
def observedDays (rs : List Record) : List String :=
  ((rs.filterMap (·.transactionDate)).map dayName).dedup

/-- One pivot cell: the sum of the non-missing total-spent amounts of the
records falling on the given day name and hour (zero when none do, the
fill value). -/
def heatCell (rs : List Record) (d : String) (h : Nat) : ℚ :=
  ((rs.filter fun r =>
      match r.transactionDate with
      | some t => decide (dayName t = d ∧ hourOf t = h)
      | none => false).filterMap (·.totalSpent)).sum

/-- Number of cells of the heatmap view. -/
def Heatmap.entryCount (hm : Heatmap) : Nat :=
  (hm.rows.map fun p => p.2.length).sum

/-- Time-heatmap routine: it first assigns the two derived columns
Day_of_Week and Hour into the caller's frame (the returned Dataset makes
that mutation explicit), then pivots total spent over day name times hour
with sum aggregation and zero fill, and reindexes the rows to the seven
day names, a reindex that fills a day absent from the pivot with missing
cells. -/
def time_heatmap (ds : Dataset) : Heatmap × Dataset :=
  let rs := ds.records
  let hs := observedHours rs
  let hm : Heatmap :=
    { hours := hs
      rows := dayNames.map fun d =>
        (d,
          if d ∈ observedDays rs then hs.map fun h => some (heatCell rs d h)
          else hs.map fun _ => (none : Option ℚ)) }
  (hm, { extraColumns := ds.extraColumns ++ ["Day_of_Week", "Hour"],
         records := ds.records })

/-- Sales-trend chart routine: computes the daily view, leaves the frame
untouched. -/
def sales_trend_chart (ds : Dataset) : List (Int × DailyStats) × Dataset :=
  (daily_sales_data ds.records, ds)

/-- Product-performance chart routine: computes the item view, leaves the
frame untouched. -/
def product_performance_chart (ds : Dataset) :
    List (String × ItemStats) × Dataset :=
  (product_performance_data ds.records, ds)

/-- Location-analysis chart routine: computes the location view, leaves
the frame untouched. -/
def location_analysis_chart (ds : Dataset) :
    List (String × LocationStats) × Dataset :=
  (location_analysis_data ds.records, ds)

/-- Payment-method chart routine: computes the payment view, leaves the
frame untouched. -/
def payment_method_chart (ds : Dataset) :
    List (String × PaymentStats) × Dataset :=
  (payment_method_data ds.records, ds)

/-- The five views bundled as create_all_charts builds them. -/
structure AllCharts where
  salesTrend : List (Int × DailyStats)
  productPerformance : List (String × ItemStats)
  timeHeatmap : Heatmap
  locationAnalysis : List (String × LocationStats)
  paymentMethods : List (String × PaymentStats)
deriving DecidableEq, Repr

/-- create_all_charts: run the five chart routines in source order on the
shared frame, threading through each routine's effect on the frame. -/
def create_all_charts (ds : Dataset) : AllCharts × Dataset :=
  let st := sales_trend_chart ds
  let pp := product_performance_chart st.2
  let hm := time_heatmap pp.2
  let la := location_analysis_chart hm.2
  let pm := payment_method_chart la.2
  ({ salesTrend := st.1, productPerformance := pp.1, timeHeatmap := hm.1,
     locationAnalysis := la.1, paymentMethods := pm.1 }, pm.2)

/-- Name for the start-bound predicate applied inside filter_by_date: with
no bound every record is kept, with a bound a record is kept when its
timestamp is present and at least the bound. -/
def keepLow : Option Timestamp → Record → Bool
  | none, _ => true
  | some a, r =>
      match r.transactionDate with
      | none => false
      | some t => decide (a ≤ t)

/-- Name for the end-bound predicate applied inside filter_by_date. -/
def keepHigh : Option Timestamp → Record → Bool
  | none, _ => true
  | some b, r =>
      match r.transactionDate with
      | none => false
      | some t => decide (t ≤ b)

/-- A raw row whose timestamp cell does not parse and whose other cells
are clean. -/
def c1Row : RawRow := fun c =>
  if c = "Transaction Date" then .text "not-a-date"
  else if c = "Item" then .text "Coffee"
  else if c = "Quantity" then .number 2
  else if c = "Price Per Unit" then .number 3
  else if c = "Total Spent" then .number 6
  else if c = "Payment Method" then .text "Cash"
  else .text "In-store"

/-- A raw input with all seven columns whose single row has an
unparseable timestamp. -/
def c1Input : RawInput := { columns := requiredColumns, rows := [c1Row] }

/-- A clean raw row. -/
def cleanRow : RawRow := fun c =>
  if c = "Transaction Date" then .time 600
  else if c = "Item" then .text "Latte"
  else if c = "Quantity" then .number 1
  else if c = "Price Per Unit" then .number 4
  else if c = "Total Spent" then .number 4
  else if c = "Payment Method" then .text "Card"
  else .text "Takeaway"

/-- A raw input with all seven columns and one clean row. -/
def c8Input : RawInput := { columns := requiredColumns, rows := [cleanRow] }

/-- A raw input holding one clean row and one row with an unparseable
timestamp. -/
def c9Input : RawInput :=
  { columns := requiredColumns, rows := [cleanRow, c1Row] }

/-- A raw row for an input whose header lacks the timestamp column. -/
def c5Row : RawRow := fun c =>
  if c = "Quantity" then .number 1
  else if c = "Price Per Unit" then .number 2
  else if c = "Total Spent" then .number 2
  else if c = "Payment Method" then .text "Cash"
  else if c = "Location" then .text "In-store"
  else .blank

/-- A raw input missing both the Transaction Date and the Item columns. -/
def c5Input : RawInput :=
  { columns := ["Quantity", "Price Per Unit", "Total Spent",
                "Payment Method", "Location"],
    rows := [c5Row] }

/-- A raw input that has the timestamp column but lacks the Item column. -/
def c5WitnessInput : RawInput :=
  { columns := ["Transaction Date", "Quantity", "Price Per Unit",
                "Total Spent", "Payment Method", "Location"],
    rows := [c5Row] }

/-- Two records with present timestamps, for the range-filter witness. -/
def c7Records : List Record :=
  [{ transactionDate := some 100, item := some "Tea", quantity := some 1,
     pricePerUnit := some 2, totalSpent := some 2,
     paymentMethod := some "Cash", location := some "In-store" },
   { transactionDate := none, item := some "Scone", quantity := some 1,
     pricePerUnit := some 3, totalSpent := some 3,
     paymentMethod := some "Card", location := some "Takeaway" }]

/-- A dataset whose single record has a missing payment method. -/
def c10Ds : Dataset :=
  { extraColumns := [],
    records := [{ transactionDate := some 0, item := some "Tea",
                  quantity := some 1, pricePerUnit := some 2,
                  totalSpent := some 2, paymentMethod := none,
                  location := some "In-store" }] }

/-- A single-record dataset observing one day and one hour. -/
def c2Ds : Dataset :=
  { extraColumns := [],
    records := [{ transactionDate := some 600, item := some "Coffee",
                  quantity := some 1, pricePerUnit := some 5,
                  totalSpent := some 5, paymentMethod := some "Cash",
                  location := some "In-store" }] }

/-- A small dataset used to exhibit the heatmap routine's frame
mutation. -/
def c4Ds : Dataset :=
  { extraColumns := [],
    records := [{ transactionDate := some 30, item := some "Muffin",
                  quantity := some 2, pricePerUnit := some 2,
                  totalSpent := some 4, paymentMethod := some "Card",
                  location := some "Takeaway" }] }

/-- A dataset whose single record has a missing item but a present total
amount. -/
def c3Ds : Dataset :=
  { extraColumns := [],
    records := [{ transactionDate := some 0, item := none,
                  quantity := some 1, pricePerUnit := some 5,
                  totalSpent := some 5, paymentMethod := some "Cash",
                  location := some "In-store" }] }

/-- A dataset with one named item and a missing amount, for the item-view
witness. -/
def c3WitnessDs : Dataset :=
  { extraColumns := [],
    records := [{ transactionDate := some 0, item := some "Coffee",
                  quantity := some 1, pricePerUnit := some 5,
                  totalSpent := none, paymentMethod := some "Cash",
                  location := some "In-store" }] }

lemma load_data_ok (start_date end_date : Option Timestamp) (input : RawInput)
    (hreq : ∀ c ∈ requiredColumns, c ∈ input.columns)
    (hne : input.rows ≠ []) :
    load_data start_date end_date input =
      .ok { extraColumns := [],
            records :=
              if start_date.isSome || end_date.isSome then
                filter_by_date start_date end_date
                  (validate_data_types input.rows)
              else validate_data_types input.rows } := by
  have hTD : "Transaction Date" ∈ input.columns :=
    hreq _ (by simp [requiredColumns])
  have hf : (requiredColumns.filter fun c => decide (c ∉ input.columns)) = [] := by
    simp only [List.filter_eq_nil_iff]
    intro c hc
    simp [hreq c hc]
  unfold load_data
  rw [if_pos hTD, hf]
  rw [if_pos List.isEmpty_nil, if_neg (by simpa using hne)]

lemma load_data_ok_inv {s e : Option Timestamp} {input : RawInput}
    {ds : Dataset} (h : load_data s e input = .ok ds) :
    ds = { extraColumns := [],
           records :=
             if s.isSome || e.isSome then
               filter_by_date s e (validate_data_types input.rows)
             else validate_data_types input.rows } := by
  unfold load_data at h
  by_cases hTD : "Transaction Date" ∈ input.columns
  · rw [if_pos hTD] at h
    by_cases hm : (requiredColumns.filter
        fun c => decide (c ∉ input.columns)).isEmpty = true
    · rw [if_pos hm] at h
      by_cases hr : input.rows.isEmpty = true
      · rw [if_pos hr] at h
        exact absurd h (by simp)
      · rw [if_neg hr] at h
        exact (Except.ok.inj h).symm
    · rw [if_neg hm] at h
      exact absurd h (by simp)
  · rw [if_neg hTD] at h
    exact absurd h (by simp)

/-- Claim C1 (amended): a record whose timestamp fails temporal coercion is not
removed by load when no date bound is configured: the returned dataset has
exactly the coerced rows, the failed timestamp left as a missing value. -/
theorem load_keeps_unparseable_timestamp_rows
    (input : RawInput) (ds : Dataset)
    (h : load_data none none input = .ok ds) :
    ds.records = input.rows.map coerceRow := by
  have := load_data_ok_inv h
  subst this
  simp [validate_data_types]

/-- Claim C1 witness: the amended statement evaluated on a concrete accepted
input with one unparseable timestamp. -/
theorem load_keeps_unparseable_timestamp_rows_witness :
    ({ extraColumns := [], records := [coerceRow c1Row] } : Dataset).records =
      c1Input.rows.map coerceRow :=
  load_keeps_unparseable_timestamp_rows c1Input _ rfl

/-- Claim C1 counterexample: load accepts an input whose only row has an
unparseable timestamp and returns a dataset whose record still sits there
with a missing timestamp, refuting the row-removal invariant. -/
theorem load_keeps_unparseable_timestamp_rows_cex :
    load_data none none c1Input =
      Except.ok { extraColumns := [], records := [coerceRow c1Row] } ∧
    coerceRow c1Row ∈ [coerceRow c1Row] ∧
    (coerceRow c1Row).transactionDate = none :=
  ⟨rfl, List.mem_singleton_self _, rfl⟩

/-- C8: field coercion is total and structural - once the structural
checks pass, load succeeds (per-value coercion never raises), and the
coercion step maps each raw row to exactly one record, dropping none;
every coerced field is an optional value, invalid inputs becoming the
missing marker. -/
theorem coercion_total_never_drops (s e : Option Timestamp)
    (input : RawInput)
    (hreq : ∀ c ∈ requiredColumns, c ∈ input.columns)
    (hne : input.rows ≠ []) :
    (∃ ds, load_data s e input = .ok ds) ∧
    validate_data_types input.rows = input.rows.map coerceRow ∧
    (validate_data_types input.rows).length = input.rows.length := by
  exact ⟨⟨_, load_data_ok s e input hreq hne⟩, rfl, by
    simp [validate_data_types]⟩

/-- Claim C8 witness: the totality statement evaluated on a concrete clean
input. -/
theorem coercion_total_never_drops_witness :
    (∃ ds, load_data none none c8Input = .ok ds) ∧
    validate_data_types c8Input.rows = c8Input.rows.map coerceRow ∧
    (validate_data_types c8Input.rows).length = c8Input.rows.length :=
  coercion_total_never_drops none none c8Input (by decide)
    (by simp [c8Input])

lemma mem_filter_by_date_isSome {s e : Option Timestamp}
    {rs : List Record} {r : Record}
    (h : r ∈ filter_by_date s e rs) (hse : s.isSome ∨ e.isSome) :
    r.transactionDate.isSome := by
  unfold filter_by_date at h
  cases s with
  | none =>
      cases e with
      | none => simp at hse
      | some b =>
          simp only [List.mem_filter] at h
          cases hts : r.transactionDate with
          | none => rw [hts] at h; simp at h
          | some t => simp
  | some a =>
      cases e with
      | none =>
          simp only [List.mem_filter] at h
          cases hts : r.transactionDate with
          | none => rw [hts] at h; simp at h
          | some t => simp
      | some b =>
          simp only [List.mem_filter] at h
          cases hts : r.transactionDate with
          | none => rw [hts] at h; simp at h
          | some t => simp

/-- C9: the range filter's treatment of missing-timestamp records depends
on whether a bound is present: when load is configured with at least one
bound, every record of the returned dataset has a present timestamp
(missing timestamps satisfy neither inclusive comparison), while with no
bound configured every coerced row, missing timestamp or not, is
retained. -/
theorem filter_missing_timestamp_bound_dependence
    (s e : Option Timestamp) (input : RawInput) (ds dsU : Dataset)
    (hb : load_data s e input = .ok ds) (hse : s.isSome ∨ e.isSome)
    (hnb : load_data none none input = .ok dsU) :
    (∀ r ∈ ds.records, r.transactionDate.isSome) ∧
    (∀ row ∈ input.rows, toTemporal (row "Transaction Date") = none →
      coerceRow row ∈ dsU.records) := by
  constructor
  · intro r hr
    have hds := load_data_ok_inv hb
    subst hds
    simp only at hr
    rw [if_pos (by simpa using hse)] at hr
    exact mem_filter_by_date_isSome hr hse
  · intro row hrow _
    have hds := load_data_ok_inv hnb
    subst hds
    simp only [Option.isSome_none, Bool.or_self, if_neg Bool.false_ne_true,
      validate_data_types]
    exact List.mem_map_of_mem coerceRow hrow

/-- Claim C9 witness: loading a two-row input with a start bound removes the
missing-timestamp record, while loading it unbounded retains it. -/
theorem filter_missing_timestamp_bound_dependence_witness :
    (∀ r ∈ ({ extraColumns := [],
              records := [coerceRow cleanRow] } : Dataset).records,
      r.transactionDate.isSome) ∧
    (∀ row ∈ c9Input.rows, toTemporal (row "Transaction Date") = none →
      coerceRow row ∈ ({ extraColumns := [],
                         records := [coerceRow cleanRow, coerceRow c1Row] } :
                        Dataset).records) :=
  filter_missing_timestamp_bound_dependence (some 0) none c9Input _ _
    rfl (Or.inl rfl) rfl

/-- Claim C5 (amended): when the timestamp column is present but other required
columns are absent, load fails with the schema error naming exactly the
missing required fields, independent of the row values (so before any
numeric coercion); when the timestamp column itself is absent the read
step fails first with a different error. -/
theorem schema_error_names_missing_fields
    (s e : Option Timestamp) (input : RawInput)
    (hTD : "Transaction Date" ∈ input.columns)
    (hmiss : ∃ c ∈ requiredColumns, c ∉ input.columns) :
    load_data s e input =
      .error (.missingColumns
        (requiredColumns.filter fun c => decide (c ∉ input.columns))) ∧
    (∀ c, c ∈ (requiredColumns.filter fun c => decide (c ∉ input.columns)) ↔
      c ∈ requiredColumns ∧ c ∉ input.columns) := by
  constructor
  · have hne : (requiredColumns.filter
        fun c => decide (c ∉ input.columns)).isEmpty = false := by
      obtain ⟨c, hc, hnc⟩ := hmiss
      rcases hcase : (requiredColumns.filter
          fun c => decide (c ∉ input.columns)) with _ | _
      · exact absurd ((List.filter_eq_nil_iff.mp hcase) c hc) (by simp [hnc])
      · simp [hcase]
    unfold load_data
    rw [if_pos hTD, if_neg (by simp only [hne]; exact Bool.false_ne_true)]
  · intro c
    simp [List.mem_filter]

/-- Claim C5 witness: the amended statement evaluated on an input that has the
timestamp column but lacks the Item column. -/
theorem schema_error_names_missing_fields_witness :
    load_data none none c5WitnessInput =
      .error (.missingColumns
        (requiredColumns.filter fun c => decide (c ∉ c5WitnessInput.columns))) ∧
    (∀ c, c ∈ (requiredColumns.filter
        fun c => decide (c ∉ c5WitnessInput.columns)) ↔
      c ∈ requiredColumns ∧ c ∉ c5WitnessInput.columns) :=
  schema_error_names_missing_fields none none c5WitnessInput (by decide)
    ⟨"Item", by decide, by decide⟩

/-- Claim C5 counterexample: on an input missing both the timestamp
column and the Item column, the read step fails with the parse-dates
error naming only the timestamp column, not the schema error naming
exactly the set of missing fields. -/
theorem schema_error_names_missing_fields_cex :
    load_data none none c5Input =
      .error (.parseDatesMissingColumn "Transaction Date") ∧
    load_data none none c5Input ≠
      .error (.missingColumns ["Transaction Date", "Item"]) ∧
    "Item" ∉ c5Input.columns := by
  refine ⟨rfl, ?_, by decide⟩
  intro h
  rw [show load_data none none c5Input =
    .error (.parseDatesMissingColumn "Transaction Date") from rfl] at h
  simp at h

lemma filter_by_date_eq_filter (s e : Option Timestamp) (rs : List Record) :
    filter_by_date s e rs = (rs.filter (keepLow s)).filter (keepHigh e) := by
  have hlow : ∀ l : List Record, l.filter (keepLow none) = l :=
    fun l => List.filter_eq_self.mpr fun a _ => rfl
  have hhigh : ∀ l : List Record, l.filter (keepHigh none) = l :=
    fun l => List.filter_eq_self.mpr fun a _ => rfl
  cases s <;> cases e <;>
    simp only [filter_by_date, hlow, hhigh] <;> rfl

lemma keepLow_mono {s' s : Option Timestamp} {r : Record}
    (hs : s' = none ∨ ∃ a' a, s' = some a' ∧ s = some a ∧ a' ≤ a)
    (h : keepLow s r = true) : keepLow s' r = true := by
  rcases hs with rfl | ⟨a', a, rfl, rfl, hle⟩
  · rfl
  · have h' : (match r.transactionDate with
        | none => false
        | some t => decide (a ≤ t)) = true := h
    show (match r.transactionDate with
        | none => false
        | some t => decide (a' ≤ t)) = true
    cases hts : r.transactionDate with
    | none => rw [hts] at h'; exact absurd h' (by simp)
    | some t =>
        rw [hts] at h'
        have h2 : a ≤ t := of_decide_eq_true h'
        show decide (a' ≤ t) = true
        exact decide_eq_true (le_trans hle h2)

lemma keepHigh_mono {e' e : Option Timestamp} {r : Record}
    (he : e' = none ∨ ∃ b' b, e' = some b' ∧ e = some b ∧ b ≤ b')
    (h : keepHigh e r = true) : keepHigh e' r = true := by
  rcases he with rfl | ⟨b', b, rfl, rfl, hle⟩
  · rfl
  · have h' : (match r.transactionDate with
        | none => false
        | some t => decide (t ≤ b)) = true := h
    show (match r.transactionDate with
        | none => false
        | some t => decide (t ≤ b')) = true
    cases hts : r.transactionDate with
    | none => rw [hts] at h'; exact absurd h' (by simp)
    | some t =>
        rw [hts] at h'
        have h2 : t ≤ b := of_decide_eq_true h'
        show decide (t ≤ b') = true
        exact decide_eq_true (le_trans h2 hle)

/-- C7: the range filter is idempotent - refiltering an already-filtered
dataset with the same or a wider interval (either bound may widen to a
smaller start, larger end, or be dropped) returns the same records; with
both bounds absent the input comes back unchanged; and the filtered
output is always a subsequence of the input, preserving relative order. -/
theorem range_filter_idempotent
    (s e s' e' : Option Timestamp) (rs : List Record)
    (hs : s' = none ∨ ∃ a' a, s' = some a' ∧ s = some a ∧ a' ≤ a)
    (he : e' = none ∨ ∃ b' b, e' = some b' ∧ e = some b ∧ b ≤ b') :
    filter_by_date s' e' (filter_by_date s e rs) = filter_by_date s e rs ∧
    filter_by_date none none rs = rs ∧
    (filter_by_date s e rs).Sublist rs := by
  refine ⟨?_, rfl, ?_⟩
  · have hmem : ∀ r ∈ filter_by_date s e rs,
        keepLow s r = true ∧ keepHigh e r = true := by
      intro r hr
      rw [filter_by_date_eq_filter] at hr
      have h2 := List.mem_filter.mp hr
      have h1 := List.mem_filter.mp h2.1
      exact ⟨h1.2, h2.2⟩
    rw [filter_by_date_eq_filter s' e',
      List.filter_eq_self.mpr (fun r hr => keepLow_mono hs (hmem r hr).1)]
    exact List.filter_eq_self.mpr fun r hr => keepHigh_mono he (hmem r hr).2
  · rw [filter_by_date_eq_filter]
    exact (List.filter_sublist _).trans (List.filter_sublist _)

/-- Claim C7 witness: idempotence evaluated on a concrete two-record list, the
refilter using the same start bound and a dropped end bound. -/
theorem range_filter_idempotent_witness :
    filter_by_date (some 0) none
        (filter_by_date (some 0) (some 2000) c7Records) =
      filter_by_date (some 0) (some 2000) c7Records ∧
    filter_by_date none none c7Records = c7Records ∧
    (filter_by_date (some 0) (some 2000) c7Records).Sublist c7Records :=
  range_filter_idempotent (some 0) (some 2000) (some 0) none c7Records
    (Or.inr ⟨0, 0, rfl, rfl, le_refl 0⟩) (Or.inl rfl)

lemma length_filterMap_lt {α β : Type _} (f : α → Option β) (l : List α)
    (h : ∃ a ∈ l, f a = none) : (l.filterMap f).length < l.length := by
  induction l with
  | nil => simp at h
  | cons a t ih =>
      rcases h with ⟨b, hb, hfb⟩
      rcases List.mem_cons.mp hb with rfl | hbt
      · rw [List.filterMap_cons, hfb]
        exact Nat.lt_succ_of_le (List.length_filterMap_le f t)
      · rw [List.filterMap_cons]
        cases hfa : f a with
        | none => exact Nat.lt_succ_of_le (List.length_filterMap_le f t)
        | some b' =>
            simpa using Nat.succ_lt_succ (ih ⟨b, hbt, hfb⟩)

/-- C10: the summary's per-payment-method counts exclude records whose
payment method is missing while the total record count includes them, so
on any dataset containing such a record the counts sum to strictly less
than the total. -/
theorem payment_counts_exclude_missing (ds : Dataset)
    (h : ∃ r ∈ ds.records, r.paymentMethod = none) :
    ((get_data_summary ds).payment_methods.map Prod.snd).sum <
      (get_data_summary ds).total_records := by
  have h1 : (get_data_summary ds).payment_methods.map Prod.snd =
      (ds.records.filterMap (·.paymentMethod)).dedup.map
        fun k => (ds.records.filterMap (·.paymentMethod)).count k := by
    simp [get_data_summary, valueCounts, List.map_map, Function.comp]
  rw [h1, List.sum_map_count_dedup_eq_length]
  exact length_filterMap_lt _ _ h

/-- Claim C10 witness: on a dataset whose single record misses its payment
method the counts sum to zero, below the total of one. -/
theorem payment_counts_exclude_missing_witness :
    ((get_data_summary c10Ds).payment_methods.map Prod.snd).sum <
      (get_data_summary c10Ds).total_records :=
  payment_counts_exclude_missing c10Ds
    ⟨_, List.mem_singleton_self _, rfl⟩

/-- C6: the outlier detector, applied per numeric column, returns exactly
the indices whose present value lies outside the fence built from the
25th and 75th linear percentiles of the column's non-missing values; a
missing value is never flagged, and a column with no non-missing values
yields the empty result rather than failing. -/
theorem outlier_detector_spec (rs : List Record) :
    check_outliers rs =
      [("Total Spent", outlierIndices (rs.map (·.totalSpent))),
       ("Quantity", outlierIndices (rs.map (·.quantity))),
       ("Price Per Unit", outlierIndices (rs.map (·.pricePerUnit)))] ∧
    ∀ vals : List (Option ℚ),
      ((vals.filterMap id).isEmpty = true → outlierIndices vals = []) ∧
      ∀ i : Nat, i ∈ outlierIndices vals ↔
        i < vals.length ∧ ∃ v, vals.getD i none = some v ∧
          (v < lowerFence vals ∨ upperFence vals < v) := by
  refine ⟨rfl, fun vals => ⟨fun h => by simp [outlierIndices, h], fun i => ?_⟩⟩
  unfold outlierIndices
  by_cases hcl : (vals.filterMap id).isEmpty = true
  · rw [if_pos hcl]
    constructor
    · intro hi
      exact absurd hi (List.not_mem_nil i)
    · rintro ⟨hlen, v, hv, -⟩
      exfalso
      have hgd := List.getD_eq_getElem vals none hlen
      have hvm : (some v) ∈ vals := by
        rw [hgd] at hv
        rw [← hv]
        exact List.getElem_mem hlen
      have : v ∈ vals.filterMap id := List.mem_filterMap.mpr ⟨some v, hvm, rfl⟩
      rw [List.isEmpty_iff.mp hcl] at this
      exact absurd this (List.not_mem_nil v)
  · rw [if_neg hcl]
    rw [List.mem_filter, List.mem_range]
    constructor
    · rintro ⟨h1, h2⟩
      refine ⟨h1, ?_⟩
      cases hv : vals.getD i none with
      | none => rw [hv] at h2; exact absurd h2 (by simp)
      | some v =>
          rw [hv] at h2
          exact ⟨v, rfl, of_decide_eq_true h2⟩
    · rintro ⟨h1, v, hv, hout⟩
      refine ⟨h1, ?_⟩
      rw [hv]
      exact decide_eq_true hout

/-- Claim C6 witness: a column whose only value is missing yields the empty
result. -/
theorem outlier_detector_spec_witness :
    outlierIndices ([none] : List (Option ℚ)) = [] :=
  ((outlier_detector_spec []).2 [none]).1 rfl

/-- Claim C2 counterexample: on a single-record dataset observing one hour, the
heatmap view has 7 entries, not the dense 168 of the claim. -/
theorem heatmap_dense_grid_cex :
    (time_heatmap c2Ds).1.entryCount = 7 ∧
    (time_heatmap c2Ds).1.entryCount ≠ 168 := by
  constructor <;> decide

/-- Claim C2 (amended): the heatmap view has exactly 7 rows but only one column
per hour actually observed, hence 7 times that many entries rather than
168; a day absent from the data gets a row of missing cells from the
reindex, while an observed day gets a cell for each observed hour whose
value is the (possibly zero-filled) sum; a (day, hour) combination with no
matching records sums to zero. -/
theorem heatmap_shape (ds : Dataset) :
    (time_heatmap ds).1.entryCount = 7 * (observedHours ds.records).length ∧
    (∀ d ∈ dayNames, d ∉ observedDays ds.records →
      (d, (observedHours ds.records).map fun _ => (none : Option ℚ)) ∈
        (time_heatmap ds).1.rows) ∧
    (∀ d ∈ dayNames, d ∈ observedDays ds.records →
      (d, (observedHours ds.records).map
          fun h => some (heatCell ds.records d h)) ∈
        (time_heatmap ds).1.rows) ∧
    (∀ (d : String) (h : Nat),
      (ds.records.filter fun r =>
        match r.transactionDate with
        | some t => decide (dayName t = d ∧ hourOf t = h)
        | none => false) = [] →
      heatCell ds.records d h = 0) := by
  have hrows : (time_heatmap ds).1.rows = dayNames.map fun d =>
      (d, if d ∈ observedDays ds.records
          then (observedHours ds.records).map
            fun h => some (heatCell ds.records d h)
          else (observedHours ds.records).map
            fun _ => (none : Option ℚ)) := rfl
  refine ⟨?_, ?_, ?_, ?_⟩
  · show ((time_heatmap ds).1.rows.map fun p => p.2.length).sum = _
    rw [hrows, List.map_map]
    have hlen : ∀ d ∈ dayNames,
        ((fun p : String × List (Option ℚ) => p.2.length) ∘ fun d =>
          (d, if d ∈ observedDays ds.records
              then (observedHours ds.records).map
                fun h => some (heatCell ds.records d h)
              else (observedHours ds.records).map
                fun _ => (none : Option ℚ))) d =
          (observedHours ds.records).length := by
      intro d _
      by_cases hd : d ∈ observedDays ds.records <;>
        simp [Function.comp, hd]
    rw [List.map_congr_left hlen]
    simp [dayNames]
    ring
  · intro d hd hnot
    rw [hrows]
    exact List.mem_map.mpr ⟨d, hd, by rw [if_neg hnot]⟩
  · intro d hd hobs
    rw [hrows]
    exact List.mem_map.mpr ⟨d, hd, by rw [if_pos hobs]⟩
  · intro d h hempty
    unfold heatCell
    rw [hempty]
    rfl

/-- Claim C2 witness: the amended shape evaluated on the single-record dataset:
7 entries for its one observed hour, a missing row for the unobserved
Tuesday, and a zero cell at an unmatched combination. -/
theorem heatmap_shape_witness :
    (time_heatmap c2Ds).1.entryCount =
      7 * (observedHours c2Ds.records).length ∧
    ("Tuesday", (observedHours c2Ds.records).map fun _ => (none : Option ℚ)) ∈
      (time_heatmap c2Ds).1.rows ∧
    heatCell c2Ds.records "Tuesday" 0 = 0 :=
  ⟨(heatmap_shape c2Ds).1,
   (heatmap_shape c2Ds).2.1 "Tuesday" (by decide) (by decide),
   (heatmap_shape c2Ds).2.2.2 "Tuesday" 0 (by decide)⟩

/-- Claim C4 counterexample: the time-heatmap routine hands back a frame with
the two derived columns assigned into it, so the dataset is not identical
before and after every view, and the same shows through
create_all_charts. -/
theorem views_do_not_modify_cex :
    (time_heatmap c4Ds).2 ≠ c4Ds ∧ (create_all_charts c4Ds).2 ≠ c4Ds := by
  constructor <;> decide

/-- Claim C4 (amended): the daily-sales, item, location and payment views leave
the dataset untouched, and the summary is a pure function of it; the
time-heatmap, however, assigns the two derived columns Day_of_Week and
Hour into the shared frame, leaving the records themselves unchanged -
the only frame effect, which create_all_charts then propagates. -/
theorem views_do_not_modify_amended (ds : Dataset) :
    (sales_trend_chart ds).2 = ds ∧
    (product_performance_chart ds).2 = ds ∧
    (location_analysis_chart ds).2 = ds ∧
    (payment_method_chart ds).2 = ds ∧
    (time_heatmap ds).2.records = ds.records ∧
    (time_heatmap ds).2.extraColumns =
      ds.extraColumns ++ ["Day_of_Week", "Hour"] ∧
    (create_all_charts ds).2.records = ds.records ∧
    (create_all_charts ds).2.extraColumns =
      ds.extraColumns ++ ["Day_of_Week", "Hour"] :=
  ⟨rfl, rfl, rfl, rfl, rfl, rfl, rfl, rfl⟩

lemma sum_map_add_split (ks : List String) (f g : String → ℚ) :
    (ks.map fun k => f k + g k).sum = (ks.map f).sum + (ks.map g).sum := by
  induction ks with
  | nil => simp
  | cons a l ih =>
      simp only [List.map_cons, List.sum_cons, ih]
      ring

lemma sum_map_single (ks : List String) (hnd : ks.Nodup) (k₀ : String)
    (hk : k₀ ∈ ks) (v : ℚ) :
    (ks.map fun k =>
      if (some k₀ : Option String) = some k then v else 0).sum = v := by
  induction ks with
  | nil => cases hk
  | cons a l ih =>
      rcases List.mem_cons.mp hk with rfl | hmem
      · simp only [List.map_cons, List.sum_cons, if_pos rfl]
        have hz : (l.map fun k =>
            if (some k₀ : Option String) = some k then v else 0) =
            l.map fun _ => (0 : ℚ) := by
          apply List.map_congr_left
          intro k hkl
          rw [if_neg]
          simp only [Option.some.injEq]
          intro he
          exact (List.nodup_cons.mp hnd).1 (he ▸ hkl)
        rw [hz]
        simp
      · have ha : ¬((some k₀ : Option String) = some a) := by
          simp only [Option.some.injEq]
          intro he
          exact (List.nodup_cons.mp hnd).1 (he ▸ hmem)
        simp only [List.map_cons, List.sum_cons, if_neg ha]
        rw [ih (List.nodup_cons.mp hnd).2 hmem]
        ring

lemma itemGroupTS_cons_sum (r : Record) (t : List Record) (k : String) :
    (itemGroupTS (r :: t) k).sum =
      (if r.item = some k then r.totalSpent.getD 0 else 0) +
        (itemGroupTS t k).sum := by
  unfold itemGroupTS
  rw [List.filter_cons]
  by_cases h : r.item = some k
  · rw [if_pos (decide_eq_true h), if_pos h, List.filterMap_cons]
    cases hts : r.totalSpent with
    | none => simp [hts]
    | some v => simp [hts]
  · rw [if_neg (by simpa using h), if_neg h, zero_add]

lemma sum_group_ts (ks : List String) (hnd : ks.Nodup) :
    ∀ rs : List Record,
      (∀ r ∈ rs, ∀ k, r.item = some k → k ∈ ks) →
      (∀ r ∈ rs, r.item.isSome) →
      (ks.map fun k => (itemGroupTS rs k).sum).sum =
        (rs.filterMap (·.totalSpent)).sum := by
  intro rs
  induction rs with
  | nil =>
      intro _ _
      have h0 : (ks.map fun k => (itemGroupTS [] k).sum) =
          ks.map fun _ => (0 : ℚ) :=
        List.map_congr_left fun k _ => rfl
      rw [h0]
      simp
  | cons r t ih =>
      intro hcover hsome
      obtain ⟨k₀, hk0⟩ : ∃ k₀, r.item = some k₀ := by
        cases hri : r.item with
        | none =>
            exact absurd (hsome r (List.mem_cons_self r t)) (by simp [hri])
        | some k => exact ⟨k, rfl⟩
      have hk0mem : k₀ ∈ ks := hcover r (List.mem_cons_self r t) k₀ hk0
      rw [List.map_congr_left fun k _ => itemGroupTS_cons_sum r t k,
        sum_map_add_split]
      have hind : (ks.map fun k =>
          if r.item = some k then r.totalSpent.getD 0 else 0).sum =
          r.totalSpent.getD 0 := by
        rw [List.map_congr_left (fun k _ => by rw [hk0] :
          ∀ k ∈ ks, (if r.item = some k then r.totalSpent.getD 0 else 0) =
            if (some k₀ : Option String) = some k
            then r.totalSpent.getD 0 else 0)]
        exact sum_map_single ks hnd k₀ hk0mem _
      rw [hind,
        ih (fun r' hr' => hcover r' (List.mem_cons_of_mem _ hr'))
          (fun r' hr' => hsome r' (List.mem_cons_of_mem _ hr')),
        List.filterMap_cons]
      cases hts : r.totalSpent with
      | none => simp [hts]
      | some v => simp [hts]

/-- Claim C3 counterexample: on a dataset whose single record has a present
total amount but a missing item, the item view is empty (sum zero) while
the summary's total-amount sum is five, so the two sums disagree. -/
theorem item_view_sum_matches_summary_cex :
    ((product_performance_data c3Ds.records).map fun p => p.2.revenue).sum = 0 ∧
    (get_data_summary c3Ds).total_sales = 5 ∧
    ((product_performance_data c3Ds.records).map fun p => p.2.revenue).sum ≠
      (get_data_summary c3Ds).total_sales := by
  have h1 : ((product_performance_data c3Ds.records).map
      fun p => p.2.revenue).sum = 0 := rfl
  have h2 : (get_data_summary c3Ds).total_sales = 5 := by
    simp [get_data_summary, c3Ds]
  refine ⟨h1, h2, ?_⟩
  rw [h1, h2]
  norm_num

/-- Claim C3 (amended): the sums agree under the conditions the code imposes:
when every record has a present item, there are at most 15 distinct items
(the view keeps only the top 15), and each per-item sum is exact at two
decimals (the view rounds), the item-view revenue column sums to the
summary's total-amount sum. -/
theorem item_view_sum_matches_summary_amended (ds : Dataset)
    (hItems : ∀ r ∈ ds.records, r.item.isSome)
    (hCard : (itemKeys ds.records).length ≤ 15)
    (hRound : ∀ k ∈ itemKeys ds.records,
      round2 (itemGroupTS ds.records k).sum = (itemGroupTS ds.records k).sum) :
    ((product_performance_data ds.records).map fun p => p.2.revenue).sum =
      (get_data_summary ds).total_sales := by
  unfold product_performance_data
  rw [List.take_of_length_le (by
    rw [List.length_insertionSort, List.length_map]
    exact hCard)]
  have hperm : ((List.insertionSort (fun a b => b.2.revenue ≤ a.2.revenue)
      ((itemKeys ds.records).map fun k => (k, itemStatsOf ds.records k))).map
        fun p => p.2.revenue).Perm
      (((itemKeys ds.records).map fun k => (k, itemStatsOf ds.records k)).map
        fun p => p.2.revenue) :=
    (List.perm_insertionSort _ _).map _
  rw [hperm.sum_eq, List.map_map]
  have hcongr : List.map ((fun p : String × ItemStats => p.2.revenue) ∘
      fun k => (k, itemStatsOf ds.records k)) (itemKeys ds.records) =
      List.map (fun k => (itemGroupTS ds.records k).sum)
        (itemKeys ds.records) :=
    List.map_congr_left fun k hk => hRound k hk
  rw [hcongr]
  rw [sum_group_ts (itemKeys ds.records) (List.nodup_dedup _) ds.records
    (fun r hr k hk =>
      List.mem_dedup.mpr (List.mem_filterMap.mpr ⟨r, hr, hk⟩))
    hItems]
  rfl

/-- Claim C3 witness: the amended statement evaluated on a one-record dataset
with a named item whose amount is missing, so both sums are zero. -/
theorem item_view_sum_matches_summary_amended_witness :
    ((product_performance_data c3WitnessDs.records).map
      fun p => p.2.revenue).sum = (get_data_summary c3WitnessDs).total_sales :=
  item_view_sum_matches_summary_amended c3WitnessDs (by decide) (by decide)
    (by
      intro k hk
      rw [show itemKeys c3WitnessDs.records = ["Coffee"] from rfl,
        List.mem_singleton] at hk
      subst hk
      rw [show itemGroupTS c3WitnessDs.records "Coffee" = [] from rfl]
      show round2 0 = 0
      norm_num [round2, roundHalfEven])

end CafeSales
